import Mathlib

/-! Dapper Dasher: the per-frame update core of `dasher.cpp`.

A shallow embedding of `src/dasher.cpp` and the properties of its sprite
animator, ground physics, obstacle field, collision loop and presentation
branch.

Numeric model.
* C++ `float` values are rationals (`ℚ`): `+`, `-`, `*`, `/` and the comparisons
  are the exact ones, rounding is not modelled.
* C++ `int` values are integers (`ℤ`); `int / int` is `Int.tdiv` (rounds toward
  zero), an `int` used in a `float` expression is cast to `ℚ`, and a `float`
  stored into an `int` is truncated toward zero (`truncToInt`).  Signed overflow
  and out-of-range conversions are undefined in C++ and have no counterpart here.
* A run of the game loop is a list of per-frame inputs: the value returned by
  `GetFrameTime()` and the value of `IsKeyDown(KEY_SPACE)`.
* Draw calls have no effect on the program state and are left out; the branch
  that selects what is drawn is `presentation`.
-/

namespace Dasher

/-! ## Data model -/

/-- The raylib `Rectangle`: four `float` fields. -/
structure Rectangle where
  x : ℚ
  y : ℚ
  width : ℚ
  height : ℚ
  deriving DecidableEq

/-- The raylib `Vector2`: two `float` fields. -/
structure Vector2 where
  x : ℚ
  y : ℚ
  deriving DecidableEq

/-- The fields of the raylib `Texture2D` that the program reads. -/
structure Texture2D where
  width : ℤ
  height : ℤ
  deriving DecidableEq

/-- The struct `SpriteAnimationData2D` (lines 29-56). -/
structure SpriteAnimationData2D where
  spriteRectangle : Rectangle
  position : Vector2
  frame : ℤ
  runningTime : ℚ
  updateTime : ℚ
  deriving DecidableEq

/-- Conversion of a `float` to an `int`: the fractional part is discarded. -/
def truncToInt (q : ℚ) : ℤ :=
  Int.tdiv q.num (q.den : ℤ)

/-! ## Functions of the source -/

/-- The function `IsOnGround` (lines 63-66). -/
def IsOnGround (spriteData : SpriteAnimationData2D) (window_height : ℤ) : Bool :=
  decide (spriteData.position.y ≥ ((window_height : ℚ) - spriteData.spriteRectangle.height))

/-- The function `UpdateAnimation` (lines 71-95), statement by statement. -/
def UpdateAnimation (spriteData : SpriteAnimationData2D) (deltaTime : ℚ) (maxFrame : ℤ) :
    SpriteAnimationData2D :=
  let s1 := { spriteData with runningTime := spriteData.runningTime + deltaTime }
  if s1.runningTime ≥ s1.updateTime then
    let s2 := { s1 with runningTime := 0 }
    let s3 := { s2 with
      spriteRectangle := { s2.spriteRectangle with x := (s2.frame : ℚ) * s2.spriteRectangle.width } }
    let s4 := { s3 with frame := s3.frame + 1 }
    if s4.frame > maxFrame then { s4 with frame := 0 } else s4
  else
    s1

/-- Modelled from the spec: the raylib function `CheckCollisionRecs`, which is
not part of this repository; the spec gives its test as
`ax < bx+bw ∧ ax+aw > bx ∧ ay < by+bh ∧ ay+ah > by`. -/
def CheckCollisionRecs (rec1 rec2 : Rectangle) : Bool :=
  decide (rec1.x < rec2.x + rec2.width ∧ rec1.x + rec1.width > rec2.x ∧
    rec1.y < rec2.y + rec2.height ∧ rec1.y + rec1.height > rec2.y)

/-! ## The state of `main` -/

/-- Main canvas width in pixels (line 107). -/
def window_width : ℤ := 512

/-- Main canvas height in pixels (line 108). -/
def window_height : ℤ := 380

/-- Gravity modifier (line 119). -/
def gravity : ℤ := 1000

/-- Velocity added by a jump (line 123). -/
def player_jump_velocity : ℤ := -600

/-- Horizontal velocity of the nebulae (line 127). -/
def enemyNebula_Velocity : ℤ := -250

/-- Padding of the nebula hit-box (line 339). -/
def enemy_padding : ℚ := 50

/-- What `main` obtains from the library before the game loop: the five loaded
textures and the value of `GetRandomValue(10,20)`. -/
structure Setup where
  playerSpritesheet : Texture2D
  nebulaSpritesheet : Texture2D
  background : Texture2D
  midground : Texture2D
  foreground : Texture2D
  nebula_number : ℕ
  deriving DecidableEq

/-- The local variables of `main` that live across iterations of the game loop. -/
structure GameState where
  isInAir : Bool
  player_velocity : ℤ
  playerAnimation : SpriteAnimationData2D
  enemies_nebula : List SpriteAnimationData2D
  finishLine : ℚ
  isColliding : Bool
  background_1_posX : ℚ
  background_velocity : ℚ
  midground_1_posX : ℚ
  midground_velocity : ℚ
  foreground_1_posX : ℚ
  foreground_velocity : ℚ
  deriving DecidableEq

/-- A value-initialised sprite, as the elements of `enemies_nebula[nebula_number]{}`. -/
def zeroSprite : SpriteAnimationData2D :=
  { spriteRectangle := { x := 0, y := 0, width := 0, height := 0 },
    position := { x := 0, y := 0 }, frame := 0, runningTime := 0, updateTime := 0 }

/-- Initialiser of `playerAnimation` (lines 138-144). -/
def initPlayer (playerSpritesheet : Texture2D) : SpriteAnimationData2D :=
  let spriteRectangle : Rectangle :=
    { x := 0, y := 0, width := ((Int.tdiv playerSpritesheet.width 6 : ℤ) : ℚ),
      height := (playerSpritesheet.height : ℚ) }
  { spriteRectangle := spriteRectangle,
    position := { x := ((Int.tdiv window_width 2 : ℤ) : ℚ) - spriteRectangle.width / 2,
                  y := (window_height : ℚ) - spriteRectangle.height },
    frame := 0,
    runningTime := 0,
    updateTime := 1 / 12 }

/-- Body of the spawn loop for index `i` (lines 162-174). -/
def spawnNebula (nebulaSpritesheet : Texture2D) (i : ℕ) : SpriteAnimationData2D :=
  let height : ℚ := ((Int.tdiv nebulaSpritesheet.height 8 : ℤ) : ℚ)
  { spriteRectangle :=
      { x := 0, y := 0, width := ((Int.tdiv nebulaSpritesheet.width 8 : ℤ) : ℚ), height := height },
    position := { x := ((window_width + (i : ℤ) * 500 : ℤ) : ℚ), y := (window_height : ℚ) - height },
    frame := 0,
    runningTime := 0,
    updateTime := 0 }

/-- The spawn loop `for(int i=0; i<nebula_number; i++)` (lines 160-175). -/
def spawnNebulae (nebulaSpritesheet : Texture2D) (nebula_number : ℕ) : List SpriteAnimationData2D :=
  (List.range nebula_number).map (spawnNebula nebulaSpritesheet)

/-- State of `main` when the game loop is entered (lines 119-202). -/
def initialState (cfg : Setup) : GameState :=
  let enemies_nebula := spawnNebulae cfg.nebulaSpritesheet cfg.nebula_number
  { isInAir := false,
    player_velocity := 0,
    playerAnimation := initPlayer cfg.playerSpritesheet,
    enemies_nebula := enemies_nebula,
    finishLine := (enemies_nebula.getD (cfg.nebula_number - 1) zeroSprite).position.x,
    isColliding := false,
    background_1_posX := 0,
    background_velocity := 20,
    midground_1_posX := 0,
    midground_velocity := 40,
    foreground_1_posX := 0,
    foreground_velocity := 80 }

/-! ## One iteration of the game loop -/

/-- Scrolling of one layer: `posX -= velocity * delta_time` followed by the reset
`if(posX <= -texture.width * 2) posX = 0` (lines 223-227, 238-242, 250-254). -/
def scrollLayer (posX velocity : ℚ) (texture : Texture2D) (delta_time : ℚ) : ℚ :=
  let p := posX - velocity * delta_time
  if p ≤ ((-texture.width * 2 : ℤ) : ℚ) then 0 else p

/-- Environment side scrolling (lines 219-259). -/
def scrollStep (cfg : Setup) (delta_time : ℚ) (s : GameState) : GameState :=
  { s with
    background_1_posX := scrollLayer s.background_1_posX s.background_velocity cfg.background delta_time,
    midground_1_posX := scrollLayer s.midground_1_posX s.midground_velocity cfg.midground delta_time,
    foreground_1_posX := scrollLayer s.foreground_1_posX s.foreground_velocity cfg.foreground delta_time }

/-- Player gravity (lines 266-276). -/
def gravityStep (delta_time : ℚ) (s : GameState) : GameState :=
  if IsOnGround s.playerAnimation window_height then
    { s with player_velocity := 0, isInAir := false }
  else
    { s with
      player_velocity := truncToInt ((s.player_velocity : ℚ) + (gravity : ℚ) * delta_time),
      isInAir := true }

/-- Player jumping (lines 282-285); `keySpace` is `IsKeyDown(KEY_SPACE)`. -/
def jumpStep (keySpace : Bool) (s : GameState) : GameState :=
  if keySpace && !s.isInAir then
    { s with player_velocity := s.player_velocity + player_jump_velocity }
  else
    s

/-- One nebula of the position update loop (line 294). -/
def moveNebula (delta_time : ℚ) (nebula : SpriteAnimationData2D) : SpriteAnimationData2D :=
  { nebula with
    position := { nebula.position with
      x := nebula.position.x + (enemyNebula_Velocity : ℚ) * delta_time } }

/-- Position update (lines 292-299). -/
def positionStep (delta_time : ℚ) (s : GameState) : GameState :=
  { s with
    enemies_nebula := s.enemies_nebula.map (moveNebula delta_time),
    finishLine := s.finishLine + (enemyNebula_Velocity : ℚ) * delta_time,
    playerAnimation := { s.playerAnimation with
      position := { s.playerAnimation.position with
        y := s.playerAnimation.position.y + (s.player_velocity : ℚ) * delta_time } } }

/-- Animation (lines 316-325). -/
def animationStep (delta_time : ℚ) (s : GameState) : GameState :=
  let playerAnimation :=
    if !s.isInAir then UpdateAnimation s.playerAnimation delta_time 5 else s.playerAnimation
  { s with
    playerAnimation := playerAnimation,
    enemies_nebula := s.enemies_nebula.map (fun nebula => UpdateAnimation nebula delta_time 7) }

/-- The rectangle `nebula_rectangle` (lines 342-347). -/
def nebula_rectangle (nebula : SpriteAnimationData2D) : Rectangle :=
  { x := nebula.position.x + enemy_padding,
    y := nebula.position.y + enemy_padding,
    width := nebula.spriteRectangle.width - 2 * enemy_padding,
    height := nebula.spriteRectangle.height - 2 * enemy_padding }

/-- The rectangle `player_rectangle` (lines 350-355). -/
def player_rectangle (playerAnimation : SpriteAnimationData2D) : Rectangle :=
  { x := playerAnimation.position.x,
    y := playerAnimation.position.y,
    width := playerAnimation.spriteRectangle.width,
    height := playerAnimation.spriteRectangle.height }

/-- The collision loop (lines 331-367): one pass over `enemies_nebula`, setting
the flag whenever the two rectangles collide. -/
def collisionLoop (playerAnimation : SpriteAnimationData2D)
    (enemies_nebula : List SpriteAnimationData2D) (isColliding : Bool) : Bool :=
  enemies_nebula.foldl
    (fun flag nebula =>
      if CheckCollisionRecs (nebula_rectangle nebula) (player_rectangle playerAnimation) then true
      else flag)
    isColliding

/-- Collision detection (lines 331-367) on the state. -/
def collisionStep (s : GameState) : GameState :=
  { s with isColliding := collisionLoop s.playerAnimation s.enemies_nebula s.isColliding }

/-- What the presentation branch (lines 369-393) puts on the screen. -/
inductive Screen where
  | gameOver
  | youWin
  | scene
  deriving DecidableEq

/-- Selection of the presentation branch (lines 369, 379, 383). -/
def presentation (s : GameState) : Screen :=
  if s.isColliding then Screen.gameOver
  else if s.playerAnimation.position.x > s.finishLine then Screen.youWin
  else Screen.scene

/-- State change of the presentation branch: on a collision the three scroll
velocities are set to zero (lines 375-377). -/
def presentationStep (s : GameState) : GameState :=
  if s.isColliding then
    { s with background_velocity := 0, midground_velocity := 0, foreground_velocity := 0 }
  else
    s

/-- One iteration of the `while` loop (lines 209-401) with `GetFrameTime()`
returning `delta_time` and `IsKeyDown(KEY_SPACE)` returning `keySpace`. -/
def frame (cfg : Setup) (delta_time : ℚ) (keySpace : Bool) (s : GameState) : GameState :=
  presentationStep
    (collisionStep
      (animationStep delta_time
        (positionStep delta_time
          (jumpStep keySpace
            (gravityStep delta_time
              (scrollStep cfg delta_time s))))))

/-- The state after the frames of `inputs`, starting from `s`. -/
def runFrom (cfg : Setup) (s : GameState) (inputs : List (ℚ × Bool)) : GameState :=
  inputs.foldl (fun st i => frame cfg i.1 i.2 st) s

/-- The state after the frames of `inputs`, starting from the initial state. -/
def run (cfg : Setup) (inputs : List (ℚ × Bool)) : GameState :=
  runFrom cfg (initialState cfg) inputs

/-- The three states of the whole-game state machine. -/
inductive Status where
  | Running
  | Lost
  | Won
  deriving DecidableEq

/-- State shown at the end of a frame: the branch taken at lines 369-393. -/
def status (s : GameState) : Status :=
  match presentation s with
  | Screen.gameOver => Status.Lost
  | Screen.youWin => Status.Won
  | Screen.scene => Status.Running

/-! ## Definitions used in the statements -/

/-- Whether the frame that starts in `s` adds the jump impulse: the condition of
line 282 evaluated after the gravity block. -/
def jumpApplied (delta_time : ℚ) (keySpace : Bool) (s : GameState) : Bool :=
  keySpace && !(gravityStep delta_time s).isInAir

/-- A setup with a 768x128 player sheet, an 800x800 nebula sheet and ten nebulae. -/
def demoSetup : Setup :=
  { playerSpritesheet := { width := 768, height := 128 },
    nebulaSpritesheet := { width := 800, height := 800 },
    background := { width := 256, height := 192 },
    midground := { width := 256, height := 192 },
    foreground := { width := 352, height := 192 },
    nebula_number := 10 }

/-- The frame index that follows `frame` in a sheet whose last index is `maxFrame`. -/
def nextFrame (frame maxFrame : ℤ) : ℤ :=
  if frame < maxFrame then frame + 1 else 0

/-- The setup of the end-to-end scenario of the spec: three nebulae. -/
def scenarioSetup : Setup :=
  { demoSetup with nebula_number := 3 }

/-- Total horizontal displacement of the obstacle field over the frames of
`inputs`: the sum of `enemyNebula_Velocity * delta_time`. -/
def obstacleShift (inputs : List (ℚ × Bool)) : ℚ :=
  (inputs.map (fun i => (enemyNebula_Velocity : ℚ) * i.1)).sum

/-- The axis-aligned overlap test of the padded hit-box of `nebula`,
`(x + 50, y + 50, width - 100, height - 100)`, against the unpadded box of
`player`, `(x, y, width, height)`. -/
def paddedOverlap (nebula player : SpriteAnimationData2D) : Prop :=
  nebula.position.x + 50 < player.position.x + player.spriteRectangle.width ∧
  nebula.position.x + 50 + (nebula.spriteRectangle.width - 100) > player.position.x ∧
  nebula.position.y + 50 < player.position.y + player.spriteRectangle.height ∧
  nebula.position.y + 50 + (nebula.spriteRectangle.height - 100) > player.position.y

/-- The obstacle field of `s` is the spawn layout of `n` nebulae moved by `shift`,
and the finish line is the spawn finish line moved by `shift`. -/
def FieldAt (n : ℕ) (shift : ℚ) (s : GameState) : Prop :=
  s.enemies_nebula.length = n ∧
  (∀ i : ℕ, i < n → ∃ nebula, s.enemies_nebula[i]? = some nebula ∧
    nebula.position.x = (window_width : ℚ) + (i : ℚ) * 500 + shift) ∧
  s.finishLine = (window_width : ℚ) + ((n - 1 : ℕ) : ℚ) * 500 + shift

/-- Three frames without collision that end with the last nebula's `x` left of
the player's `x`: a long first frame on the ground, a jump, and the fall. -/
def wonInputs : List (ℚ × Bool) :=
  [(18, false), (1 / 2, true), (7 / 8, false)]

/-- Four half-second frames with the jump key held: the jump of the first frame
ends at `y = 552`, 300 pixels below the ground line of the 128-pixel player. -/
def sinkInputs : List (ℚ × Bool) :=
  [(1 / 2, true), (1 / 2, true), (1 / 2, true), (1 / 2, true)]

/-! # Properties -/

/-! ## Sprite animator -/

theorem UpdateAnimation_of_reached (s : SpriteAnimationData2D) (deltaTime : ℚ) (maxFrame : ℤ)
    (h : s.runningTime + deltaTime ≥ s.updateTime) :
    UpdateAnimation s deltaTime maxFrame =
      { s with
        runningTime := 0,
        spriteRectangle := { s.spriteRectangle with x := (s.frame : ℚ) * s.spriteRectangle.width },
        frame := if s.frame + 1 > maxFrame then 0 else s.frame + 1 } := by
  unfold UpdateAnimation
  simp only [h, if_true]
  split_ifs <;> rfl

theorem UpdateAnimation_of_not_reached (s : SpriteAnimationData2D) (deltaTime : ℚ) (maxFrame : ℤ)
    (h : ¬ s.runningTime + deltaTime ≥ s.updateTime) :
    UpdateAnimation s deltaTime maxFrame = { s with runningTime := s.runningTime + deltaTime } := by
  unfold UpdateAnimation
  simp only [h, if_false]

theorem UpdateAnimation_position (s : SpriteAnimationData2D) (deltaTime : ℚ) (maxFrame : ℤ) :
    (UpdateAnimation s deltaTime maxFrame).position = s.position := by
  by_cases h : s.runningTime + deltaTime ≥ s.updateTime
  · rw [UpdateAnimation_of_reached s deltaTime maxFrame h]
  · rw [UpdateAnimation_of_not_reached s deltaTime maxFrame h]

theorem UpdateAnimation_width (s : SpriteAnimationData2D) (deltaTime : ℚ) (maxFrame : ℤ) :
    (UpdateAnimation s deltaTime maxFrame).spriteRectangle.width = s.spriteRectangle.width := by
  by_cases h : s.runningTime + deltaTime ≥ s.updateTime
  · rw [UpdateAnimation_of_reached s deltaTime maxFrame h]
  · rw [UpdateAnimation_of_not_reached s deltaTime maxFrame h]

theorem UpdateAnimation_height (s : SpriteAnimationData2D) (deltaTime : ℚ) (maxFrame : ℤ) :
    (UpdateAnimation s deltaTime maxFrame).spriteRectangle.height = s.spriteRectangle.height := by
  by_cases h : s.runningTime + deltaTime ≥ s.updateTime
  · rw [UpdateAnimation_of_reached s deltaTime maxFrame h]
  · rw [UpdateAnimation_of_not_reached s deltaTime maxFrame h]

/-- C1: for a sprite with `0 ≤ frame ≤ maxFrame` and `deltaTime ≥ 0`, one call of
`UpdateAnimation` either (threshold reached) resets `runningTime` to 0, sets the
rectangle's `x` to the old frame times the width and moves `frame` to the next
index, wrapping from `maxFrame` to 0, or (threshold not reached) only adds
`deltaTime` to `runningTime`; the frame moves by at most one step, stays in
`[0, maxFrame]`, and position, `updateTime`, and the rectangle's `y`, `width` and
`height` are unchanged. -/
theorem UpdateAnimation_contract (s : SpriteAnimationData2D) (deltaTime : ℚ) (maxFrame : ℤ)
    (_hdt : 0 ≤ deltaTime) (h0 : 0 ≤ s.frame) (h1 : s.frame ≤ maxFrame) :
    (s.runningTime + deltaTime ≥ s.updateTime →
      (UpdateAnimation s deltaTime maxFrame).runningTime = 0 ∧
      (UpdateAnimation s deltaTime maxFrame).spriteRectangle.x
        = (s.frame : ℚ) * s.spriteRectangle.width ∧
      (UpdateAnimation s deltaTime maxFrame).frame
        = if s.frame < maxFrame then s.frame + 1 else 0) ∧
    (¬ s.runningTime + deltaTime ≥ s.updateTime →
      (UpdateAnimation s deltaTime maxFrame).runningTime = s.runningTime + deltaTime ∧
      (UpdateAnimation s deltaTime maxFrame).frame = s.frame ∧
      (UpdateAnimation s deltaTime maxFrame).spriteRectangle.x = s.spriteRectangle.x) ∧
    ((UpdateAnimation s deltaTime maxFrame).frame = s.frame ∨
      (UpdateAnimation s deltaTime maxFrame).frame = nextFrame s.frame maxFrame) ∧
    0 ≤ (UpdateAnimation s deltaTime maxFrame).frame ∧
    (UpdateAnimation s deltaTime maxFrame).frame ≤ maxFrame ∧
    (UpdateAnimation s deltaTime maxFrame).position = s.position ∧
    (UpdateAnimation s deltaTime maxFrame).updateTime = s.updateTime ∧
    (UpdateAnimation s deltaTime maxFrame).spriteRectangle.y = s.spriteRectangle.y ∧
    (UpdateAnimation s deltaTime maxFrame).spriteRectangle.width = s.spriteRectangle.width ∧
    (UpdateAnimation s deltaTime maxFrame).spriteRectangle.height = s.spriteRectangle.height := by
  by_cases h : s.runningTime + deltaTime ≥ s.updateTime
  · rw [UpdateAnimation_of_reached s deltaTime maxFrame h]
    unfold nextFrame
    refine ⟨fun _ => ⟨rfl, rfl, ?_⟩, fun hn => absurd h hn, Or.inr ?_, ?_, ?_, rfl, rfl, rfl,
      rfl, rfl⟩
    all_goals dsimp only
    all_goals split_ifs <;> omega
  · rw [UpdateAnimation_of_not_reached s deltaTime maxFrame h]
    exact ⟨fun hr => absurd hr h, fun _ => ⟨rfl, rfl, rfl⟩, Or.inl rfl, h0, h1, rfl, rfl, rfl,
      rfl, rfl⟩

/-- Witness of C1: the freshly created player sprite of `demoSetup`, 1/10 s, `maxFrame` 5. -/
theorem UpdateAnimation_contract_witness :
    (0 : ℚ) ≤ 1 / 10 ∧
    ((UpdateAnimation (initPlayer demoSetup.playerSpritesheet) (1 / 10) 5).runningTime = 0 ∧
      (UpdateAnimation (initPlayer demoSetup.playerSpritesheet) (1 / 10) 5).spriteRectangle.x
        = ((initPlayer demoSetup.playerSpritesheet).frame : ℚ)
          * (initPlayer demoSetup.playerSpritesheet).spriteRectangle.width ∧
      (UpdateAnimation (initPlayer demoSetup.playerSpritesheet) (1 / 10) 5).frame
        = if (initPlayer demoSetup.playerSpritesheet).frame < 5
          then (initPlayer demoSetup.playerSpritesheet).frame + 1 else 0) :=
  ⟨by norm_num,
    (UpdateAnimation_contract (initPlayer demoSetup.playerSpritesheet) (1 / 10) 5
      (by norm_num) (by decide) (by decide)).1 (by decide!)⟩

/-! ## Ground test -/

/-- C2: `IsOnGround` holds exactly when `position.y + height ≥ groundHeight`; the
boundary `position.y + height = groundHeight` is on the ground, and so is the
sprite with `position.y = 300`, `height = 100` under `groundHeight = 380`. -/
theorem IsOnGround_iff :
    (∀ (s : SpriteAnimationData2D) (groundHeight : ℤ),
      IsOnGround s groundHeight = true ↔
        s.position.y + s.spriteRectangle.height ≥ (groundHeight : ℚ)) ∧
    (∀ (s : SpriteAnimationData2D) (groundHeight : ℤ),
      s.position.y + s.spriteRectangle.height = (groundHeight : ℚ) →
        IsOnGround s groundHeight = true) ∧
    IsOnGround
      { spriteRectangle := { x := 0, y := 0, width := 100, height := 100 },
        position := { x := 100, y := 300 }, frame := 0, runningTime := 0, updateTime := 0 }
      380 = true := by
  have key : ∀ (s : SpriteAnimationData2D) (groundHeight : ℤ),
      IsOnGround s groundHeight = true ↔
        s.position.y + s.spriteRectangle.height ≥ (groundHeight : ℚ) := by
    intro s groundHeight
    unfold IsOnGround
    rw [decide_eq_true_iff]
    constructor <;> intro h <;> linarith
  refine ⟨key, fun s g h => (key s g).2 (le_of_eq h.symm), ?_⟩
  rw [key]
  norm_num

/-! ## Sprite-rectangle predicate -/

/-- Counterexample to C7: the freshly created player sprite satisfies
`x = frame * width`, and after one call with `deltaTime = 1/10`, `maxFrame = 5`
the returned sprite has `x = 0`, `frame = 1`, `width = 128`. -/
theorem spriteRectangle_invariant_counterexample :
    (initPlayer demoSetup.playerSpritesheet).spriteRectangle.x
      = ((initPlayer demoSetup.playerSpritesheet).frame : ℚ)
        * (initPlayer demoSetup.playerSpritesheet).spriteRectangle.width ∧
    (0 : ℚ) ≤ 1 / 10 ∧ (0 : ℤ) ≤ 5 ∧
    (UpdateAnimation (initPlayer demoSetup.playerSpritesheet) (1 / 10) 5).spriteRectangle.x = 0 ∧
    (UpdateAnimation (initPlayer demoSetup.playerSpritesheet) (1 / 10) 5).frame = 1 ∧
    (UpdateAnimation (initPlayer demoSetup.playerSpritesheet) (1 / 10) 5).spriteRectangle.width
      = 128 ∧
    ¬ (UpdateAnimation (initPlayer demoSetup.playerSpritesheet) (1 / 10) 5).spriteRectangle.x
      = ((UpdateAnimation (initPlayer demoSetup.playerSpritesheet) (1 / 10) 5).frame : ℚ)
        * (UpdateAnimation (initPlayer demoSetup.playerSpritesheet) (1 / 10) 5).spriteRectangle.width := by
  decide!

/-- C7 (amended): `x = frame * width` holds for the player sprite and for every
nebula at creation; a call of `UpdateAnimation` that does not reach `updateTime`
preserves it; a call that reaches `updateTime` on a sprite satisfying it leaves
`x` unchanged, equal to the old frame times the width, while `frame` moves to the
next index, so `x` is one frame behind. -/
theorem spriteRectangle_invariant_amended (playerSpritesheet nebulaSpritesheet : Texture2D)
    (i : ℕ) (s : SpriteAnimationData2D) (deltaTime : ℚ) (maxFrame : ℤ)
    (_hdt : 0 ≤ deltaTime) (_hmax : 0 ≤ maxFrame)
    (hinv : s.spriteRectangle.x = (s.frame : ℚ) * s.spriteRectangle.width) :
    (initPlayer playerSpritesheet).spriteRectangle.x
      = ((initPlayer playerSpritesheet).frame : ℚ)
        * (initPlayer playerSpritesheet).spriteRectangle.width ∧
    (spawnNebula nebulaSpritesheet i).spriteRectangle.x
      = ((spawnNebula nebulaSpritesheet i).frame : ℚ)
        * (spawnNebula nebulaSpritesheet i).spriteRectangle.width ∧
    (¬ s.runningTime + deltaTime ≥ s.updateTime →
      (UpdateAnimation s deltaTime maxFrame).spriteRectangle.x
        = ((UpdateAnimation s deltaTime maxFrame).frame : ℚ)
          * (UpdateAnimation s deltaTime maxFrame).spriteRectangle.width) ∧
    (s.runningTime + deltaTime ≥ s.updateTime →
      (UpdateAnimation s deltaTime maxFrame).spriteRectangle.x = s.spriteRectangle.x ∧
      (UpdateAnimation s deltaTime maxFrame).spriteRectangle.x
        = (s.frame : ℚ) * (UpdateAnimation s deltaTime maxFrame).spriteRectangle.width ∧
      (UpdateAnimation s deltaTime maxFrame).frame
        = if s.frame + 1 > maxFrame then 0 else s.frame + 1) := by
  refine ⟨by simp [initPlayer], by simp [spawnNebula], ?_, ?_⟩
  · intro h
    rw [UpdateAnimation_of_not_reached s deltaTime maxFrame h]
    exact hinv
  · intro h
    rw [UpdateAnimation_of_reached s deltaTime maxFrame h]
    exact ⟨hinv.symm, rfl, rfl⟩

/-- Witness of C7 (amended): the created player sprite, 1/10 s, `maxFrame` 5. -/
theorem spriteRectangle_invariant_amended_witness :
    (0 : ℚ) ≤ 1 / 10 ∧ (0 : ℤ) ≤ 5 ∧
    (UpdateAnimation (initPlayer demoSetup.playerSpritesheet) (1 / 10) 5).spriteRectangle.x
      = (initPlayer demoSetup.playerSpritesheet).spriteRectangle.x ∧
    (UpdateAnimation (initPlayer demoSetup.playerSpritesheet) (1 / 10) 5).frame
      = if (initPlayer demoSetup.playerSpritesheet).frame + 1 > 5 then 0
        else (initPlayer demoSetup.playerSpritesheet).frame + 1 :=
  ⟨by norm_num, by decide,
    ((spriteRectangle_invariant_amended demoSetup.playerSpritesheet demoSetup.nebulaSpritesheet 0
      (initPlayer demoSetup.playerSpritesheet) (1 / 10) 5 (by norm_num) (by decide)
      (by decide!)).2.2.2 (by decide!)).1,
    ((spriteRectangle_invariant_amended demoSetup.playerSpritesheet demoSetup.nebulaSpritesheet 0
      (initPlayer demoSetup.playerSpritesheet) (1 / 10) 5 (by norm_num) (by decide)
      (by decide!)).2.2.2 (by decide!)).2.2⟩

/-! ## Obstacle field: spawn -/

theorem spawnNebulae_length (nebulaSpritesheet : Texture2D) (n : ℕ) :
    (spawnNebulae nebulaSpritesheet n).length = n := by
  simp [spawnNebulae]

theorem spawnNebulae_getElem? (nebulaSpritesheet : Texture2D) (n i : ℕ) (h : i < n) :
    (spawnNebulae nebulaSpritesheet n)[i]? = some (spawnNebula nebulaSpritesheet i) := by
  simp [spawnNebulae, List.getElem?_map, List.getElem?_range h]

theorem spawnNebula_position_x (nebulaSpritesheet : Texture2D) (i : ℕ) :
    (spawnNebula nebulaSpritesheet i).position.x = 512 + (i : ℚ) * 500 := by
  simp [spawnNebula, window_width]

theorem initialState_finishLine (cfg : Setup) (hN : 1 ≤ cfg.nebula_number) :
    (initialState cfg).finishLine
      = (spawnNebula cfg.nebulaSpritesheet (cfg.nebula_number - 1)).position.x := by
  have h : cfg.nebula_number - 1 < cfg.nebula_number := by omega
  simp [initialState, List.getD_eq_getElem?_getD, spawnNebulae_getElem? _ _ _ h]

/-- C3: for `N ≥ 1` the spawn loop creates `N` nebulae, nebula `i` at
`x = 512 + i * 500` (`window_width = 512`) and `y = 380 - height`
(`window_height = 380`) with `frame = 0` and `runningTime = 0`, and the initial
finish line is the `x` of nebula `N - 1`, that is `512 + (N - 1) * 500`. -/
theorem spawn_layout (cfg : Setup) (hN : 1 ≤ cfg.nebula_number) :
    (initialState cfg).enemies_nebula.length = cfg.nebula_number ∧
    (∀ i : ℕ, i < cfg.nebula_number →
      ∃ nebula, (initialState cfg).enemies_nebula[i]? = some nebula ∧
        nebula.position.x = (window_width : ℚ) + (i : ℚ) * 500 ∧
        nebula.position.y = (window_height : ℚ) - nebula.spriteRectangle.height ∧
        nebula.spriteRectangle.height = ((Int.tdiv cfg.nebulaSpritesheet.height 8 : ℤ) : ℚ) ∧
        nebula.frame = 0 ∧ nebula.runningTime = 0) ∧
    (∃ last, (initialState cfg).enemies_nebula[cfg.nebula_number - 1]? = some last ∧
      (initialState cfg).finishLine = last.position.x) ∧
    (initialState cfg).finishLine
      = (window_width : ℚ) + (((cfg.nebula_number - 1 : ℕ) : ℚ)) * 500 := by
  have hlast : cfg.nebula_number - 1 < cfg.nebula_number := by omega
  refine ⟨spawnNebulae_length _ _, ?_, ?_, ?_⟩
  · intro i hi
    refine ⟨spawnNebula cfg.nebulaSpritesheet i, spawnNebulae_getElem? _ _ _ hi, ?_, rfl, rfl,
      rfl, rfl⟩
    rw [spawnNebula_position_x]
    norm_num [window_width]
  · exact ⟨spawnNebula cfg.nebulaSpritesheet (cfg.nebula_number - 1),
      spawnNebulae_getElem? _ _ _ hlast, initialState_finishLine cfg hN⟩
  · rw [initialState_finishLine cfg hN, spawnNebula_position_x]
    norm_num [window_width]

/-- Witness of C3: three nebulae are spawned at 512, 1012, 1512 and the finish
line is 1512. -/
theorem spawn_layout_witness :
    1 ≤ scenarioSetup.nebula_number ∧
    (initialState scenarioSetup).finishLine
      = (window_width : ℚ) + (((scenarioSetup.nebula_number - 1 : ℕ) : ℚ)) * 500 ∧
    (initialState scenarioSetup).enemies_nebula.map (fun nebula => nebula.position.x)
      = [512, 1012, 1512] ∧
    (initialState scenarioSetup).finishLine = 1512 :=
  ⟨by decide, (spawn_layout scenarioSetup (by decide)).2.2.2, by decide!, by decide!⟩

/-! ## Effect of one frame on each variable -/

theorem frame_isInAir (cfg : Setup) (dt : ℚ) (key : Bool) (s : GameState) :
    (frame cfg dt key s).isInAir = !IsOnGround s.playerAnimation window_height := by
  unfold frame presentationStep collisionStep animationStep positionStep jumpStep gravityStep
    scrollStep
  dsimp only
  split_ifs <;> simp_all

theorem frame_finishLine (cfg : Setup) (dt : ℚ) (key : Bool) (s : GameState) :
    (frame cfg dt key s).finishLine = s.finishLine + (enemyNebula_Velocity : ℚ) * dt := by
  unfold frame presentationStep collisionStep animationStep positionStep jumpStep gravityStep
    scrollStep
  dsimp only
  split_ifs <;> rfl

theorem frame_enemies_nebula (cfg : Setup) (dt : ℚ) (key : Bool) (s : GameState) :
    (frame cfg dt key s).enemies_nebula
      = s.enemies_nebula.map (fun nebula => UpdateAnimation (moveNebula dt nebula) dt 7) := by
  unfold frame presentationStep collisionStep animationStep positionStep jumpStep gravityStep
    scrollStep
  dsimp only
  split_ifs <;> simp [List.map_map, Function.comp_def]

theorem frame_player_velocity (cfg : Setup) (dt : ℚ) (key : Bool) (s : GameState) :
    (frame cfg dt key s).player_velocity = (jumpStep key (gravityStep dt s)).player_velocity := by
  unfold frame presentationStep collisionStep animationStep positionStep jumpStep gravityStep
    scrollStep
  dsimp only
  split_ifs <;> simp_all

theorem frame_player_position (cfg : Setup) (dt : ℚ) (key : Bool) (s : GameState) :
    (frame cfg dt key s).playerAnimation.position
      = { x := s.playerAnimation.position.x,
          y := s.playerAnimation.position.y
            + ((frame cfg dt key s).player_velocity : ℚ) * dt } := by
  unfold frame presentationStep collisionStep animationStep positionStep jumpStep gravityStep
    scrollStep
  dsimp only
  split_ifs <;> simp_all [UpdateAnimation_position]

theorem frame_player_width (cfg : Setup) (dt : ℚ) (key : Bool) (s : GameState) :
    (frame cfg dt key s).playerAnimation.spriteRectangle.width
      = s.playerAnimation.spriteRectangle.width := by
  unfold frame presentationStep collisionStep animationStep positionStep jumpStep gravityStep
    scrollStep
  dsimp only
  split_ifs <;> simp_all [UpdateAnimation_width]

theorem frame_player_height (cfg : Setup) (dt : ℚ) (key : Bool) (s : GameState) :
    (frame cfg dt key s).playerAnimation.spriteRectangle.height
      = s.playerAnimation.spriteRectangle.height := by
  unfold frame presentationStep collisionStep animationStep positionStep jumpStep gravityStep
    scrollStep
  dsimp only
  split_ifs <;> simp_all [UpdateAnimation_height]

theorem frame_isColliding (cfg : Setup) (dt : ℚ) (key : Bool) (s : GameState) :
    (frame cfg dt key s).isColliding
      = collisionLoop (frame cfg dt key s).playerAnimation (frame cfg dt key s).enemies_nebula
          s.isColliding := by
  unfold frame presentationStep collisionStep animationStep positionStep jumpStep gravityStep
    scrollStep
  dsimp only
  split_ifs <;> simp_all

theorem runFrom_cons (cfg : Setup) (s : GameState) (i : ℚ × Bool) (inputs : List (ℚ × Bool)) :
    runFrom cfg s (i :: inputs) = runFrom cfg (frame cfg i.1 i.2 s) inputs := by
  simp [runFrom]

theorem runFrom_append (cfg : Setup) (s : GameState) (inputs more : List (ℚ × Bool)) :
    runFrom cfg s (inputs ++ more) = runFrom cfg (runFrom cfg s inputs) more := by
  simp [runFrom, List.foldl_append]

theorem run_append (cfg : Setup) (inputs more : List (ℚ × Bool)) :
    run cfg (inputs ++ more) = runFrom cfg (run cfg inputs) more := by
  simp [run, runFrom_append]

theorem run_snoc (cfg : Setup) (inputs : List (ℚ × Bool)) (dt : ℚ) (key : Bool) :
    run cfg (inputs ++ [(dt, key)]) = frame cfg dt key (run cfg inputs) := by
  simp [run, runFrom, List.foldl_append]

/-! ## Collision loop -/

theorem CheckCollisionRecs_iff (nebula player : SpriteAnimationData2D) :
    CheckCollisionRecs (nebula_rectangle nebula) (player_rectangle player) = true ↔
      paddedOverlap nebula player := by
  unfold CheckCollisionRecs nebula_rectangle player_rectangle paddedOverlap enemy_padding
  rw [decide_eq_true_iff]
  norm_num

theorem collisionLoop_eq_true_iff (player : SpriteAnimationData2D)
    (enemies : List SpriteAnimationData2D) (flag : Bool) :
    collisionLoop player enemies flag = true ↔
      flag = true ∨ ∃ nebula ∈ enemies, paddedOverlap nebula player := by
  induction enemies generalizing flag with
  | nil => simp [collisionLoop]
  | cons e rest ih =>
    have hstep : collisionLoop player (e :: rest) flag
        = collisionLoop player rest
            (if CheckCollisionRecs (nebula_rectangle e) (player_rectangle player) then true
              else flag) := by
      simp [collisionLoop]
    rw [hstep, ih]
    by_cases hc : CheckCollisionRecs (nebula_rectangle e) (player_rectangle player) = true
    · have ho := (CheckCollisionRecs_iff e player).1 hc
      simp only [hc, if_true, true_or, true_iff]
      exact Or.inr ⟨e, List.mem_cons_self _ _, ho⟩
    · have ho : ¬ paddedOverlap e player := fun h => hc ((CheckCollisionRecs_iff e player).2 h)
      simp only [hc, Bool.false_eq_true, if_false, List.mem_cons]
      constructor
      · rintro (h | ⟨n, hn, hov⟩)
        · exact Or.inl h
        · exact Or.inr ⟨n, Or.inr hn, hov⟩
      · rintro (h | ⟨n, hn | hn, hov⟩)
        · exact Or.inl h
        · exact absurd (hn ▸ hov) ho
        · exact Or.inr ⟨n, hn, hov⟩

theorem runFrom_isColliding (cfg : Setup) (inputs : List (ℚ × Bool)) (s : GameState)
    (h : s.isColliding = true) : (runFrom cfg s inputs).isColliding = true := by
  induction inputs generalizing s with
  | nil => simpa [runFrom] using h
  | cons i rest ih =>
    rw [runFrom_cons]
    apply ih
    rw [frame_isColliding, collisionLoop_eq_true_iff]
    exact Or.inl h

/-- C5: in every frame the collision flag after the collision loop is true iff
it was true before the frame or the padded hit-box of some obstacle overlaps the
unpadded box of the player (both taken after the position update of that
frame); a flag that is true stays true in every later frame; the player box
`(100,300,80,80)` collides with the padded obstacle box `(120,320,20,20)`. -/
theorem collision_flag_iff :
    (∀ (cfg : Setup) (delta_time : ℚ) (keySpace : Bool) (s : GameState),
      (frame cfg delta_time keySpace s).isColliding = true ↔
        s.isColliding = true ∨
        ∃ nebula ∈ (frame cfg delta_time keySpace s).enemies_nebula,
          paddedOverlap nebula (frame cfg delta_time keySpace s).playerAnimation) ∧
    (∀ (s : GameState),
      (collisionStep s).isColliding = true ↔
        s.isColliding = true ∨
        ∃ nebula ∈ s.enemies_nebula,
          CheckCollisionRecs (nebula_rectangle nebula) (player_rectangle s.playerAnimation)
            = true) ∧
    (∀ (cfg : Setup) (s : GameState) (inputs : List (ℚ × Bool)),
      s.isColliding = true → (runFrom cfg s inputs).isColliding = true) ∧
    CheckCollisionRecs { x := 120, y := 320, width := 20, height := 20 }
      { x := 100, y := 300, width := 80, height := 80 } = true := by
  refine ⟨?_, ?_, ?_, by decide!⟩
  · intro cfg delta_time keySpace s
    rw [frame_isColliding, collisionLoop_eq_true_iff]
  · intro s
    simp only [collisionStep, collisionLoop_eq_true_iff, CheckCollisionRecs_iff]
  · intro cfg s inputs h
    exact runFrom_isColliding cfg inputs s h

/-! ## Obstacle field: lockstep motion -/

theorem UpdateAnimation_moveNebula_position_x (dt : ℚ) (nebula : SpriteAnimationData2D) :
    (UpdateAnimation (moveNebula dt nebula) dt 7).position.x
      = nebula.position.x + (enemyNebula_Velocity : ℚ) * dt := by
  rw [UpdateAnimation_position]
  rfl

theorem frame_enemies_getElem? (cfg : Setup) (dt : ℚ) (key : Bool) (s : GameState) (i : ℕ) :
    (frame cfg dt key s).enemies_nebula[i]?
      = (s.enemies_nebula[i]?).map (fun nebula => UpdateAnimation (moveNebula dt nebula) dt 7) := by
  rw [frame_enemies_nebula, List.getElem?_map]

theorem FieldAt_frame (cfg : Setup) (n : ℕ) (shift dt : ℚ) (key : Bool) (s : GameState)
    (h : FieldAt n shift s) :
    FieldAt n (shift + (enemyNebula_Velocity : ℚ) * dt) (frame cfg dt key s) := by
  obtain ⟨hlen, hx, hfin⟩ := h
  refine ⟨?_, ?_, ?_⟩
  · rw [frame_enemies_nebula, List.length_map, hlen]
  · intro i hi
    obtain ⟨nebula, hget, hpos⟩ := hx i hi
    refine ⟨UpdateAnimation (moveNebula dt nebula) dt 7, ?_, ?_⟩
    · rw [frame_enemies_getElem?, hget]
      rfl
    · rw [UpdateAnimation_moveNebula_position_x, hpos]
      ring
  · rw [frame_finishLine, hfin]
    ring

theorem FieldAt_runFrom (cfg : Setup) (n : ℕ) (inputs : List (ℚ × Bool)) (shift : ℚ)
    (s : GameState) (h : FieldAt n shift s) :
    FieldAt n (shift + obstacleShift inputs) (runFrom cfg s inputs) := by
  induction inputs generalizing s shift with
  | nil => simpa [runFrom, obstacleShift] using h
  | cons i rest ih =>
    rw [runFrom_cons]
    have h2 := ih (shift + (enemyNebula_Velocity : ℚ) * i.1) (frame cfg i.1 i.2 s)
      (FieldAt_frame cfg n shift i.1 i.2 s h)
    have e : shift + obstacleShift (i :: rest)
        = shift + (enemyNebula_Velocity : ℚ) * i.1 + obstacleShift rest := by
      simp [obstacleShift]
      ring
    rw [e]
    exact h2

theorem FieldAt_initialState (cfg : Setup) (hN : 1 ≤ cfg.nebula_number) :
    FieldAt cfg.nebula_number 0 (initialState cfg) := by
  refine ⟨spawnNebulae_length _ _, ?_, ?_⟩
  · intro i hi
    refine ⟨spawnNebula cfg.nebulaSpritesheet i, spawnNebulae_getElem? _ _ _ hi, ?_⟩
    rw [spawnNebula_position_x]
    norm_num [window_width]
  · rw [initialState_finishLine cfg hN, spawnNebula_position_x]
    norm_num [window_width]

/-- C4: every frame moves every obstacle and the finish line by the same amount
`velocity * deltaTime` (`velocity = -250`); hence in every state reached from
spawn (`N ≥ 1` obstacles) by any frames with any `deltaTime`, obstacle `i` is at
its spawn `x` plus the accumulated shift, the finish line equals the `x` of the
last obstacle, and obstacle `i + 1` is exactly 500 to the right of obstacle `i`. -/
theorem lockstep (cfg : Setup) (hN : 1 ≤ cfg.nebula_number) (inputs : List (ℚ × Bool)) :
    (∀ (delta_time : ℚ) (keySpace : Bool) (s : GameState),
      (frame cfg delta_time keySpace s).enemies_nebula.map (fun nebula => nebula.position.x)
        = s.enemies_nebula.map (fun nebula => nebula.position.x + (-250) * delta_time) ∧
      (frame cfg delta_time keySpace s).finishLine = s.finishLine + (-250) * delta_time) ∧
    (run cfg inputs).enemies_nebula.length = cfg.nebula_number ∧
    (∀ i : ℕ, i < cfg.nebula_number →
      ∃ nebula, (run cfg inputs).enemies_nebula[i]? = some nebula ∧
        nebula.position.x = (window_width : ℚ) + (i : ℚ) * 500 + obstacleShift inputs) ∧
    (∃ last, (run cfg inputs).enemies_nebula[cfg.nebula_number - 1]? = some last ∧
      (run cfg inputs).finishLine = last.position.x) ∧
    (∀ i : ℕ, i + 1 < cfg.nebula_number →
      ∃ a b, (run cfg inputs).enemies_nebula[i]? = some a ∧
        (run cfg inputs).enemies_nebula[i + 1]? = some b ∧
        b.position.x = a.position.x + 500) := by
  have hfield : FieldAt cfg.nebula_number (obstacleShift inputs) (run cfg inputs) := by
    have h := FieldAt_runFrom cfg cfg.nebula_number inputs 0 (initialState cfg)
      (FieldAt_initialState cfg hN)
    rw [zero_add] at h
    exact h
  obtain ⟨hlen, hx, hfin⟩ := hfield
  refine ⟨?_, hlen, hx, ?_, ?_⟩
  · intro delta_time keySpace s
    refine ⟨?_, ?_⟩
    · rw [frame_enemies_nebula, List.map_map]
      apply List.map_congr_left
      intro nebula _
      simp only [Function.comp_apply]
      rw [UpdateAnimation_moveNebula_position_x]
      norm_num [enemyNebula_Velocity]
    · rw [frame_finishLine]
      norm_num [enemyNebula_Velocity]
  · obtain ⟨last, hget, hpos⟩ := hx (cfg.nebula_number - 1) (by omega)
    exact ⟨last, hget, by rw [hfin, hpos]⟩
  · intro i hi
    obtain ⟨a, hga, hpa⟩ := hx i (by omega)
    obtain ⟨b, hgb, hpb⟩ := hx (i + 1) hi
    refine ⟨a, b, hga, hgb, ?_⟩
    rw [hpa, hpb]
    push_cast
    ring

/-- Witness of C4: from 512, 1012, 1512 with finish line 1512, one frame with
`deltaTime = 1` gives 262, 762, 1262 and finish line 1262. -/
theorem lockstep_witness :
    1 ≤ scenarioSetup.nebula_number ∧
    (∃ last, (run scenarioSetup [(1, false)]).enemies_nebula[scenarioSetup.nebula_number - 1]?
        = some last ∧
      (run scenarioSetup [(1, false)]).finishLine = last.position.x) ∧
    (run scenarioSetup []).enemies_nebula.map (fun nebula => nebula.position.x)
      = [512, 1012, 1512] ∧
    (run scenarioSetup []).finishLine = 1512 ∧
    (run scenarioSetup [(1, false)]).enemies_nebula.map (fun nebula => nebula.position.x)
      = [262, 762, 1262] ∧
    (run scenarioSetup [(1, false)]).finishLine = 1262 :=
  ⟨by decide, (lockstep scenarioSetup (by decide) [(1, false)]).2.2.2.1, by decide!, by decide!,
    by decide!, by decide!⟩

/-! ## Gravity -/

theorem truncToInt_of_nonneg (q : ℚ) (h : 0 ≤ q) : truncToInt q = ⌊q⌋ := by
  unfold truncToInt
  rw [Rat.floor_def, Int.tdiv_eq_ediv (Rat.num_nonneg.2 h) (Int.ofNat_nonneg _)]

theorem truncToInt_of_neg (q : ℚ) (h : q < 0) : truncToInt q = ⌈q⌉ := by
  have h2 : truncToInt (-q) = ⌊-q⌋ := truncToInt_of_nonneg (-q) (by linarith)
  have h3 : truncToInt (-q) = -truncToInt q := by
    unfold truncToInt
    rw [Rat.neg_num, Rat.neg_den, Int.neg_tdiv]
  rw [Int.floor_neg] at h2
  omega

theorem truncToInt_eq (q : ℚ) : truncToInt q = if 0 ≤ q then ⌊q⌋ else ⌈q⌉ := by
  split_ifs with h
  · exact truncToInt_of_nonneg q h
  · exact truncToInt_of_neg q (not_le.1 h)

theorem truncToInt_sub_abs_lt_one (q : ℚ) : |((truncToInt q : ℤ) : ℚ) - q| < 1 := by
  rw [truncToInt_eq, abs_lt]
  split_ifs with h
  · have h1 := Int.floor_le q
    have h2 := Int.lt_floor_add_one q
    constructor <;> linarith
  · have h1 := Int.le_ceil q
    have h2 := Int.ceil_lt_add_one q
    constructor <;> linarith

theorem truncToInt_intCast_add (v k : ℤ) : truncToInt ((v : ℚ) + (k : ℚ)) = v + k := by
  have e : ((v : ℚ) + (k : ℚ)) = ((v + k : ℤ) : ℚ) := by push_cast; ring
  rw [truncToInt_eq, e]
  split_ifs <;> simp

theorem gravityStep_of_not_onGround (dt : ℚ) (s : GameState)
    (h : IsOnGround s.playerAnimation window_height = false) :
    gravityStep dt s =
      { s with
        player_velocity := truncToInt ((s.player_velocity : ℚ) + (gravity : ℚ) * dt),
        isInAir := true } := by
  unfold gravityStep
  simp [h]

theorem gravityStep_of_onGround (dt : ℚ) (s : GameState)
    (h : IsOnGround s.playerAnimation window_height = true) :
    gravityStep dt s = { s with player_velocity := 0, isInAir := false } := by
  unfold gravityStep
  simp [h]

/-- Counterexample to C9: after the first frame of `demoSetup` (jump key down,
`deltaTime = 1/64`) the player is off the ground with velocity -600; the gravity
step of the next frame with `deltaTime = 1/64` yields -584, while
`-600 + 1000 * (1/64) = -584.375`. -/
theorem gravity_exact_counterexample :
    (0 : ℚ) ≤ 1 / 64 ∧
    IsOnGround (run demoSetup [(1 / 64, true)]).playerAnimation window_height = false ∧
    (run demoSetup [(1 / 64, true)]).player_velocity = -600 ∧
    (gravityStep (1 / 64) (run demoSetup [(1 / 64, true)])).player_velocity = -584 ∧
    ¬ (((gravityStep (1 / 64) (run demoSetup [(1 / 64, true)])).player_velocity : ℤ) : ℚ)
      = (((run demoSetup [(1 / 64, true)]).player_velocity : ℤ) : ℚ) + (gravity : ℚ) * (1 / 64) := by
  decide!

/-- C9 (amended): in a frame that starts with the player off the ground, the
velocity after the gravity step is `previous + 1000 * deltaTime` with its
fractional part discarded (rounded toward zero, because `player_velocity` is an
`int`): it differs from the exact sum by less than 1 and equals it when
`1000 * deltaTime` is an integer. In a frame that starts with the player on the
ground the velocity is set to 0 before the jump impulse is considered. -/
theorem gravity_step_amended (delta_time : ℚ) (keySpace : Bool) (s : GameState)
    (_hdt : 0 ≤ delta_time) :
    (IsOnGround s.playerAnimation window_height = false →
      (gravityStep delta_time s).player_velocity
        = (if 0 ≤ (s.player_velocity : ℚ) + 1000 * delta_time
            then ⌊(s.player_velocity : ℚ) + 1000 * delta_time⌋
            else ⌈(s.player_velocity : ℚ) + 1000 * delta_time⌉) ∧
      |(((gravityStep delta_time s).player_velocity : ℤ) : ℚ)
        - ((s.player_velocity : ℚ) + 1000 * delta_time)| < 1 ∧
      (∀ k : ℤ, 1000 * delta_time = (k : ℚ) →
        (gravityStep delta_time s).player_velocity = s.player_velocity + k)) ∧
    (IsOnGround s.playerAnimation window_height = true →
      (gravityStep delta_time s).player_velocity = 0 ∧
      (jumpStep keySpace (gravityStep delta_time s)).player_velocity
        = if keySpace then -600 else 0) := by
  have hg : (gravity : ℚ) = 1000 := by norm_num [gravity]
  constructor
  · intro h
    rw [gravityStep_of_not_onGround delta_time s h]
    dsimp only
    rw [hg]
    refine ⟨truncToInt_eq _, truncToInt_sub_abs_lt_one _, ?_⟩
    intro k hk
    rw [hk]
    exact truncToInt_intCast_add _ _
  · intro h
    rw [gravityStep_of_onGround delta_time s h]
    refine ⟨rfl, ?_⟩
    cases keySpace <;> simp [jumpStep, player_jump_velocity]

/-- Witness of C9 (amended): the second frame after a jump, with frames of 1/64 s. -/
theorem gravity_step_amended_witness :
    (0 : ℚ) ≤ 1 / 64 ∧
    IsOnGround (run demoSetup [(1 / 64, true)]).playerAnimation window_height = false ∧
    |(((gravityStep (1 / 64) (run demoSetup [(1 / 64, true)])).player_velocity : ℤ) : ℚ)
        - (((run demoSetup [(1 / 64, true)]).player_velocity : ℚ) + 1000 * (1 / 64))| < 1 ∧
    (gravityStep (1 / 64) (run demoSetup [(1 / 64, true)])).player_velocity = -584 :=
  ⟨by norm_num, by decide!,
    ((gravity_step_amended (1 / 64) true (run demoSetup [(1 / 64, true)]) (by norm_num)).1
      (by decide!)).2.1,
    by decide!⟩

/-! ## Airborne flag -/

/-- Counterexample to C8: at the end of the first frame of `demoSetup` with the
jump key down and `deltaTime = 1/64`, the player is at `y = 242.625`, above the
ground line `380 - 128 = 252`, and `isInAir` is false. -/
theorem airborne_flag_counterexample :
    (0 : ℚ) ≤ 1 / 64 ∧
    (run demoSetup [(1 / 64, true)]).isInAir = false ∧
    (run demoSetup [(1 / 64, true)]).playerAnimation.position.y = 1941 / 8 ∧
    (run demoSetup [(1 / 64, true)]).playerAnimation.spriteRectangle.height = 128 ∧
    (run demoSetup [(1 / 64, true)]).playerAnimation.position.y
      < (window_height : ℚ) - (run demoSetup [(1 / 64, true)]).playerAnimation.spriteRectangle.height ∧
    IsOnGround (run demoSetup [(1 / 64, true)]).playerAnimation window_height = false := by
  decide!

theorem IsOnGround_eq_false_iff (sprite : SpriteAnimationData2D) (h : ℤ) :
    IsOnGround sprite h = false ↔ sprite.position.y < (h : ℚ) - sprite.spriteRectangle.height := by
  unfold IsOnGround
  rw [decide_eq_false_iff_not, not_le]

/-- C8 (amended): the game starts with `isInAir` false and the player on the
ground, and at the end of every frame of every run `isInAir` is true iff the
player was strictly above the ground line at the start of that frame, i.e. iff
`position.y < groundHeight - height` held before the frame's position update
(equivalently, `IsOnGround` was false at the start of the frame). -/
theorem airborne_flag_amended (cfg : Setup) (inputs : List (ℚ × Bool)) (delta_time : ℚ)
    (keySpace : Bool) :
    (initialState cfg).isInAir = false ∧
    IsOnGround (initialState cfg).playerAnimation window_height = true ∧
    ((run cfg (inputs ++ [(delta_time, keySpace)])).isInAir = true ↔
      (run cfg inputs).playerAnimation.position.y
        < (window_height : ℚ) - (run cfg inputs).playerAnimation.spriteRectangle.height) ∧
    ((run cfg (inputs ++ [(delta_time, keySpace)])).isInAir = true ↔
      IsOnGround (run cfg inputs).playerAnimation window_height = false) := by
  have h2 : (run cfg (inputs ++ [(delta_time, keySpace)])).isInAir = true ↔
      IsOnGround (run cfg inputs).playerAnimation window_height = false := by
    rw [run_snoc, frame_isInAir]
    simp
  refine ⟨rfl, ?_, ?_, h2⟩
  · simp [IsOnGround, initialState, initPlayer]
  · rw [h2, IsOnGround_eq_false_iff]

/-! ## Jump impulse -/

theorem jumpApplied_iff (delta_time : ℚ) (keySpace : Bool) (s : GameState) :
    jumpApplied delta_time keySpace s = true ↔
      keySpace = true ∧ IsOnGround s.playerAnimation window_height = true := by
  unfold jumpApplied gravityStep
  split_ifs with h <;> simp [h]

/-- Counterexample to C10: with `demoSetup`, four frames of 1/2 s with the key
held end with the player at `y = 552`, below the ground line 252; the next frame
(`deltaTime = 1/8`, key held) adds the impulse and ends at `y = 477`, still on
the ground, so the following frame adds the impulse again. -/
theorem jump_impulse_counterexample :
    (∀ i ∈ sinkInputs ++ [(1 / 8, true), (1 / 8, true)], (0 : ℚ) < i.1) ∧
    (run demoSetup sinkInputs).playerAnimation.position.y = 552 ∧
    jumpApplied (1 / 8) true (run demoSetup sinkInputs) = true ∧
    (run demoSetup (sinkInputs ++ [(1 / 8, true)])).player_velocity = -600 ∧
    (run demoSetup (sinkInputs ++ [(1 / 8, true)])).playerAnimation.position.y = 477 ∧
    IsOnGround (run demoSetup (sinkInputs ++ [(1 / 8, true)])).playerAnimation window_height
      = true ∧
    (gravityStep (1 / 8) (run demoSetup (sinkInputs ++ [(1 / 8, true)]))).isInAir = false ∧
    jumpApplied (1 / 8) true (run demoSetup (sinkInputs ++ [(1 / 8, true)])) = true := by
  decide!

/-- C10 (amended): the impulse is added only in a frame that starts with the
player on the ground, and the velocity is then exactly -600. If the impulse is
added in a frame that starts with
`position.y < groundHeight - height + 600 * deltaTime` (as it does when
`deltaTime > 0` and the player stands exactly on the ground line), then at the
start of the next frame the player is not on the ground, `isInAir` becomes true
and the impulse is not added in that frame, whatever the key. -/
theorem jump_impulse_amended (cfg : Setup) (s : GameState) (delta_time next_time : ℚ)
    (keySpace nextKey : Bool)
    (hjump : jumpApplied delta_time keySpace s = true)
    (hy : s.playerAnimation.position.y
      < (window_height : ℚ) - s.playerAnimation.spriteRectangle.height + 600 * delta_time) :
    IsOnGround s.playerAnimation window_height = true ∧
    (frame cfg delta_time keySpace s).player_velocity = -600 ∧
    IsOnGround (frame cfg delta_time keySpace s).playerAnimation window_height = false ∧
    (frame cfg next_time nextKey (frame cfg delta_time keySpace s)).isInAir = true ∧
    jumpApplied next_time nextKey (frame cfg delta_time keySpace s) = false := by
  obtain ⟨hkey, hground⟩ := (jumpApplied_iff delta_time keySpace s).1 hjump
  have hv : (frame cfg delta_time keySpace s).player_velocity = -600 := by
    rw [frame_player_velocity, gravityStep_of_onGround delta_time s hground, hkey]
    simp [jumpStep, player_jump_velocity]
  have hoff : IsOnGround (frame cfg delta_time keySpace s).playerAnimation window_height
      = false := by
    rw [IsOnGround_eq_false_iff, frame_player_position, frame_player_height, hv]
    push_cast
    linarith
  refine ⟨hground, hv, hoff, ?_, ?_⟩
  · rw [frame_isInAir, hoff]
    rfl
  · cases hj : jumpApplied next_time nextKey (frame cfg delta_time keySpace s)
    · rfl
    · have := ((jumpApplied_iff _ _ _).1 hj).2
      rw [hoff] at this
      exact absurd this (by decide)

/-- Witness of C10 (amended): the first frame of `demoSetup`, of 1/64 s, with the
jump key down. -/
theorem jump_impulse_amended_witness :
    (0 : ℚ) < 1 / 64 ∧
    jumpApplied (1 / 64) true (initialState demoSetup) = true ∧
    IsOnGround (frame demoSetup (1 / 64) true (initialState demoSetup)).playerAnimation
      window_height = false ∧
    jumpApplied (1 / 64) true (frame demoSetup (1 / 64) true (initialState demoSetup)) = false :=
  ⟨by norm_num, by decide!,
    (jump_impulse_amended demoSetup (initialState demoSetup) (1 / 64) (1 / 64) true true
      (by decide!) (by decide!)).2.2.1,
    (jump_impulse_amended demoSetup (initialState demoSetup) (1 / 64) (1 / 64) true true
      (by decide!) (by decide!)).2.2.2.2⟩

/-! ## Whole-game state machine -/

theorem status_eq_Lost_iff (s : GameState) : status s = Status.Lost ↔ s.isColliding = true := by
  unfold status presentation
  split_ifs <;> simp_all

theorem status_eq_Won_iff (s : GameState) :
    status s = Status.Won ↔
      s.isColliding = false ∧ s.playerAnimation.position.x > s.finishLine := by
  unfold status presentation
  split_ifs <;> simp_all

theorem status_eq_Running_iff (s : GameState) :
    status s = Status.Running ↔
      s.isColliding = false ∧ ¬ s.playerAnimation.position.x > s.finishLine := by
  unfold status presentation
  split_ifs <;> simp_all

theorem runFrom_player_position_x (cfg : Setup) (inputs : List (ℚ × Bool)) (s : GameState) :
    (runFrom cfg s inputs).playerAnimation.position.x = s.playerAnimation.position.x := by
  induction inputs generalizing s with
  | nil => rfl
  | cons i rest ih => rw [runFrom_cons, ih, frame_player_position]

theorem runFrom_finishLine_le (cfg : Setup) (inputs : List (ℚ × Bool)) (s : GameState)
    (h : ∀ i ∈ inputs, 0 ≤ i.1) : (runFrom cfg s inputs).finishLine ≤ s.finishLine := by
  induction inputs generalizing s with
  | nil => exact le_refl _
  | cons i rest ih =>
    rw [runFrom_cons]
    have h1 := ih (frame cfg i.1 i.2 s) (fun j hj => h j (List.mem_cons_of_mem _ hj))
    have h2 : 0 ≤ i.1 := h i (List.mem_cons_self _ _)
    rw [frame_finishLine] at h1
    have h3 : (enemyNebula_Velocity : ℚ) = -250 := by norm_num [enemyNebula_Velocity]
    rw [h3] at h1
    linarith

theorem initialState_status (cfg : Setup) (hN : 1 ≤ cfg.nebula_number)
    (hw : 0 ≤ cfg.playerSpritesheet.width) : status (initialState cfg) = Status.Running := by
  rw [status_eq_Running_iff]
  refine ⟨rfl, ?_⟩
  rw [initialState_finishLine cfg hN, spawnNebula_position_x]
  have h1 : (0 : ℚ) ≤ ((Int.tdiv cfg.playerSpritesheet.width 6 : ℤ) : ℚ) := by
    exact_mod_cast Int.tdiv_nonneg hw (by decide)
  have h2 : (0 : ℚ) ≤ ((cfg.nebula_number - 1 : ℕ) : ℚ) := Nat.cast_nonneg _
  have h3 : (initialState cfg).playerAnimation.position.x
      = 256 - ((Int.tdiv cfg.playerSpritesheet.width 6 : ℤ) : ℚ) / 2 := by
    have : Int.tdiv window_width 2 = 256 := by decide
    simp [initialState, initPlayer, this]
  rw [h3]
  intro hgt
  linarith

/-- Counterexample to C6: with `demoSetup`, after the three frames of `wonInputs`
(all `deltaTime ≥ 0`) no collision has occurred and the player's `x = 192` is
greater than the finish line 168.25, so the state is Won; one more frame with
`deltaTime = 1/16` lets the falling player (`y = 213.6875`) overlap the padded box
of the last nebula (at `x = 152.625`), and the state is Lost. -/
theorem won_terminal_counterexample :
    (∀ i ∈ wonInputs ++ [(1 / 16, false)], (0 : ℚ) ≤ i.1) ∧
    status (run demoSetup []) = Status.Running ∧
    (run demoSetup wonInputs).playerAnimation.position.x = 192 ∧
    (run demoSetup wonInputs).finishLine = 673 / 4 ∧
    (run demoSetup wonInputs).isColliding = false ∧
    status (run demoSetup wonInputs) = Status.Won ∧
    (run demoSetup (wonInputs ++ [(1 / 16, false)])).isColliding = true ∧
    status (run demoSetup (wonInputs ++ [(1 / 16, false)])) = Status.Lost := by
  decide!

/-- C6 (amended): with at least one nebula and a player sheet of non-negative
width the initial state is Running; Lost is terminal: once the state at the end
of a frame is Lost it is Lost after every later frame; once it is Won, after
every later frame with `deltaTime ≥ 0` it is Won or Lost, never Running again. -/
theorem status_terminal_amended (cfg : Setup) (inputs more : List (ℚ × Bool))
    (hN : 1 ≤ cfg.nebula_number) (hw : 0 ≤ cfg.playerSpritesheet.width)
    (hmore : ∀ i ∈ more, 0 ≤ i.1) :
    status (run cfg []) = Status.Running ∧
    (status (run cfg inputs) = Status.Lost → status (run cfg (inputs ++ more)) = Status.Lost) ∧
    (status (run cfg inputs) = Status.Won →
      status (run cfg (inputs ++ more)) = Status.Won ∨
      status (run cfg (inputs ++ more)) = Status.Lost) := by
  refine ⟨initialState_status cfg hN hw, ?_, ?_⟩
  · intro h
    rw [status_eq_Lost_iff] at h ⊢
    rw [run_append]
    exact runFrom_isColliding cfg more _ h
  · intro h
    rw [status_eq_Won_iff] at h
    rw [run_append, status_eq_Won_iff, status_eq_Lost_iff]
    have hx := runFrom_player_position_x cfg more (run cfg inputs)
    have hf := runFrom_finishLine_le cfg more (run cfg inputs) hmore
    cases hc : (runFrom cfg (run cfg inputs) more).isColliding
    · left
      refine ⟨rfl, ?_⟩
      rw [hx]
      exact lt_of_le_of_lt hf h.2
    · right
      rfl

/-- Witness of C6 (amended): the Won state after `wonInputs` is followed by Won
or Lost after one more frame of 1/16 s. -/
theorem status_terminal_amended_witness :
    1 ≤ demoSetup.nebula_number ∧ 0 ≤ demoSetup.playerSpritesheet.width ∧
    (∀ i ∈ [((1 / 16 : ℚ), false)], 0 ≤ i.1) ∧
    status (run demoSetup wonInputs) = Status.Won ∧
    (status (run demoSetup (wonInputs ++ [(1 / 16, false)])) = Status.Won ∨
      status (run demoSetup (wonInputs ++ [(1 / 16, false)])) = Status.Lost) :=
  ⟨by decide, by decide, by decide!, by decide!,
    (status_terminal_amended demoSetup wonInputs [(1 / 16, false)] (by decide) (by decide)
      (by decide!)).2.2 (by decide!)⟩

/-- Witness of C2: a sprite with `y = 280`, `height = 100` under `groundHeight = 380`. -/
theorem IsOnGround_iff_witness :
    ((280 : ℚ) + 100 = ((380 : ℤ) : ℚ)) ∧
    IsOnGround
      { spriteRectangle := { x := 0, y := 0, width := 100, height := 100 },
        position := { x := 100, y := 280 }, frame := 0, runningTime := 0, updateTime := 0 }
      380 = true :=
  ⟨by norm_num,
    IsOnGround_iff.2.1
      { spriteRectangle := { x := 0, y := 0, width := 100, height := 100 },
        position := { x := 100, y := 280 }, frame := 0, runningTime := 0, updateTime := 0 }
      380 (by norm_num)⟩

/-- Witness of C5: the colliding state reached by `wonInputs` and one more frame
is still colliding after a further frame. -/
theorem collision_flag_iff_witness :
    (run demoSetup (wonInputs ++ [(1 / 16, false)])).isColliding = true ∧
    (runFrom demoSetup (run demoSetup (wonInputs ++ [(1 / 16, false)])) [(1 / 64, true)]).isColliding
      = true :=
  ⟨by decide!,
    collision_flag_iff.2.2.1 demoSetup (run demoSetup (wonInputs ++ [(1 / 16, false)]))
      [(1 / 64, true)] (by decide!)⟩

end Dasher
